import Mathlib

/-!
Shallow embedding of the MuddySwamp import/templating pipeline.

Source files embedded:
- src/util/stocstring.py : StringMacro, StocString (tokenizer and renderer)
- src/mudimport.py       : process_json, Importer.import_file, the three
  variant _do_import methods, Library.build_class_distr
- src/location.py        : the Location constructor (the fields it stores)

External collaborators (Python stdlib open/read, json.loads, importlib plus
getattr, the host eval used by StringMacro.execute) are passed in as explicit
environment functions; util/distr.py (RandDist) is absent from src/ and is
modelled from the spec where noted.
-/

/-- A template token: either a literal text segment or a macro segment
carrying the raw expression text (the stripped StringMacro original). -/
inductive Tok where
  | lit (text : String)
  | mac (expr : String)
deriving DecidableEq

/-- State of the character loop in StocString.__init__ : the completed
tokens, the string currently being accumulated (tokens[-1] in the source,
kept as a character list), the brace depth, the macro_started flag and the
previous character. Depth is an integer exactly as in the source. -/
structure TokState where
  acc : List Tok
  cur : List Char
  depth : Int
  macStarted : Bool
  prev : Option Char

/-- StringMacro.__init__ : strip the leading "!\x7b" and trailing "\x7d"
when both are present (input_string[2:-1] in the source). -/
def stringMacroOf (s : String) : String :=
  if s.data.take 2 = [Char.ofNat 33, Char.ofNat 123] ∧ s.data.getLast? = some (Char.ofNat 125) then
    String.mk (s.data.drop 2).dropLast
  else s

/-- One iteration of the character loop in StocString.__init__ : the
character is first appended to tokens[-1]; inside a macro, braces move the
depth counter and the macro closes when depth returns to 0; outside, the
pair prev = exclamation, char = open brace starts a macro, removing the two
characters just appended and opening a fresh "!\x7b" token. -/
def stepChar (st : TokState) (c : Char) : TokState :=
  let cur := st.cur ++ [c]
  if st.macStarted then
    if c = Char.ofNat 123 then
      ⟨st.acc, cur, st.depth + 1, true, some c⟩
    else if c = Char.ofNat 125 then
      if st.depth - 1 = 0 then
        ⟨st.acc ++ [Tok.mac (stringMacroOf (String.mk cur))], [], st.depth - 1, false, some c⟩
      else
        ⟨st.acc, cur, st.depth - 1, true, some c⟩
    else
      ⟨st.acc, cur, st.depth, true, some c⟩
  else if c = Char.ofNat 123 ∧ st.prev = some (Char.ofNat 33) then
    ⟨st.acc ++ [Tok.lit (String.mk cur.dropLast.dropLast)], [Char.ofNat 33, Char.ofNat 123],
      st.depth + 1, true, some c⟩
  else
    ⟨st.acc, cur, st.depth, st.macStarted, some c⟩

/-- StocString.__init__ : fold the character loop over the input; the list
of tokens always ends with the string currently under construction
(tokens starts as [""] in the source and a fresh "" is appended after every
completed macro). There is no failure path: the function is total. -/
def StocString.tokens (s : String) : List Tok :=
  let fin := s.data.foldl stepChar ⟨[], [], 0, false, none⟩
  fin.acc ++ [Tok.lit (String.mk fin.cur)]

/-- Text of one token as used by StocString.__str__ : a literal prints
itself, a macro prints str(eval(expression)); the composition str of eval
is the parameter ev (host evaluation is external code). -/
def strTok (ev : String → String) : Tok → String
  | Tok.lit t => t
  | Tok.mac m => ev m

/-- StocString.__str__ / StocString.process : concatenate the token texts
in order, starting from the empty output string. -/
def StocString.process (ev : String → String) (s : String) : String :=
  (StocString.tokens s).foldl (fun o t => o ++ strTok ev t) ""

/-- Scan for an occurrence of the macro opener: true when some character
equal to an open brace is immediately preceded by an exclamation mark
(the first argument is the character preceding the list, as in the loop). -/
def opens : Option Char → List Char → Bool
  | _, [] => false
  | p, c :: rest => (decide (c = Char.ofNat 123 ∧ p = some (Char.ofNat 33))) || opens (some c) rest

/-- Parse a nonempty run of decimal digits as a natural number. -/
def parseDigitsAux : List Char → Nat → Option Nat
  | [], acc => some acc
  | c :: rest, acc =>
      if c.isDigit then parseDigitsAux rest (acc * 10 + (c.toNat - 48)) else none

/-- Parse a decimal numeral; the empty list is not a numeral. -/
def parseDigits : List Char → Option Nat
  | [] => none
  | c :: rest => parseDigitsAux (c :: rest) 0

/-- Modelled from the spec: section 4.2 StochasticEvaluator. The macros are
evaluated by host eval in StringMacro.execute, which is external code; the
spec requires ordinary arithmetic, and the fragment needed by the claims is
addition of integer literals. An expression outside the fragment is
returned unchanged. -/
def evalArith (s : String) : Option Nat :=
  ((s.data.splitOn (Char.ofNat 43)).mapM parseDigits).map (List.foldl (· + ·) 0)

/-- Rendering of one macro expression with the modelled arithmetic
evaluator: str(eval(expr)) for expressions in the addition fragment. -/
def arithEval (s : String) : String :=
  match evalArith s with
  | some n => toString n
  | none => s

/-- Structured data produced by json.loads: null, booleans, integer and
floating numbers, text, sequences and mappings. Python json distinguishes
int from float, which the frequency assertion in the source depends on. -/
inductive Json where
  | null
  | bool (b : Bool)
  | intg (n : Int)
  | flt (q : Rat)
  | str (s : String)
  | arr (xs : List Json)
  | obj (fields : List (String × Json))

/-- A Python exception as far as the importer observes it: the optional
name attribute (present only when some code did setattr(ex, "name", ...))
and a diagnostic text standing for traceback.format_exc(). -/
structure PyExc where
  nameAttr : Option String
  msg : String
deriving DecidableEq

/-- Insert or overwrite one key of an insertion-ordered dictionary,
as Python dict assignment does: an existing key keeps its position and
receives the new value, a new key is appended at the end. -/
def upsert (k : String) (v : α) : List (String × α) → List (String × α)
  | [] => [(k, v)]
  | p :: rest => if p.1 = k then (k, v) :: rest else p :: upsert k v rest

/-- Dictionary lookup on the association-list model. -/
def lookupKey (k : String) : List (String × α) → Option α
  | [] => none
  | p :: rest => if p.1 = k then some p.2 else lookupKey k rest

/-- Lookup of a field of a parsed mapping. -/
def jlookup (k : String) : List (String × Json) → Option Json
  | [] => none
  | p :: rest => if p.1 = k then some p.2 else jlookup k rest

/-- Subscript access json_data[k] restricted to mappings; on a value that
is not a mapping the source raises, which the callers of this function
model at their own level. -/
def jget (j : Json) (k : String) : Option Json :=
  match j with
  | Json.obj fields => jlookup k fields
  | _ => none

/-- The check of process_json : the assert succeeds exactly when the
top-level value is a mapping whose field "name" holds text (the source
checks membership of "name" and type(json_data["name"]) is str; there is
no emptiness check on the text). Every other shape of top-level value
makes the assert statement raise, either AssertionError or TypeError. -/
def nameCheckOk (j : Json) : Bool :=
  match jget j "name" with
  | some (Json.str _) => true
  | _ => false

/-- The exception escaping process_json when the name assert fails. It
carries no name attribute. -/
def nameExc : PyExc := ⟨none, "AssertionError: name field check"⟩

/-- External collaborators of process_json : reading the file (open and
read), host evaluation of macro expressions used while rendering the raw
text, and json.loads on the rendered text. -/
structure LoadEnv where
  readFile : String → Except PyExc String
  macroEval : String → String
  jsonLoads : String → Except PyExc Json

/-- process_json : read the file, expand StocString macros in its text,
parse the result as structured data, then assert the presence of a text
"name" field. Any failure escapes to the caller as an exception. -/
def process_json (env : LoadEnv) (filename : String) : Except PyExc Json :=
  match env.readFile filename with
  | Except.error e => Except.error e
  | Except.ok content =>
    match env.jsonLoads (StocString.process env.macroEval content) with
    | Except.error e => Except.error e
    | Except.ok j => if nameCheckOk j then Except.ok j else Except.error nameExc

/-- State of one Importer: the five dictionaries named in the class
docstring of the source, in that order — objects (the registry),
object_source, file_data, file_fails and failures. -/
structure ImpState (α : Type) where
  objects : List (String × α)
  object_source : List (String × String)
  file_data : List (String × Json)
  file_fails : List (String × String)
  failures : List (String × String)

/-- Importer state with all five dictionaries empty. -/
def emptyState (α : Type) : ImpState α := ⟨[], [], [], [], []⟩

/-- Importer.import_file : the first try block runs process_json and
records file_data on success or file_fails on failure; the second try
block runs the variant _do_import and on success stores the returned pair
into objects and object_source. On conversion failure the except block
reads ex.name: when the exception carries no name attribute that read
itself raises AttributeError, which escapes import_file — hence the
Except result type. The diagnostic recorded is the msg of the exception,
standing for traceback.format_exc(). -/
def import_file (env : LoadEnv) (doImp : Json → Except PyExc (String × α))
    (st : ImpState α) (filename : String) : Except PyExc (ImpState α) :=
  match process_json env filename with
  | Except.error ex =>
    Except.ok ⟨st.objects, st.object_source, st.file_data, upsert filename ex.msg st.file_fails, st.failures⟩
  | Except.ok json_data =>
    let st1 : ImpState α :=
      ⟨st.objects, st.object_source, upsert filename json_data st.file_data, st.file_fails, st.failures⟩
    match doImp json_data with
    | Except.ok no =>
      Except.ok ⟨upsert no.1 no.2 st1.objects, upsert no.1 filename st1.object_source,
        st1.file_data, st1.file_fails, st1.failures⟩
    | Except.error ex =>
      match ex.nameAttr with
      | some n =>
        Except.ok ⟨st1.objects, st1.object_source, st1.file_data, st1.file_fails,
          upsert n ex.msg st1.failures⟩
      | none => Except.error ⟨none, "AttributeError: exception has no attribute name"⟩

/-- One variant loop of Library.import_files : call import_file on every
filename in order; an exception escaping import_file aborts the loop and
propagates, leaving the remaining files unprocessed. -/
def import_batch (env : LoadEnv) (doImp : Json → Except PyExc (String × α))
    (st : ImpState α) : List String → Except PyExc (ImpState α)
  | [] => Except.ok st
  | f :: rest =>
    match import_file env doImp st f with
    | Except.ok st1 => import_batch env doImp st1 rest
    | Except.error e => Except.error e

/-- The Location constructor from src/location.py as far as the importer
uses it: it stores the name and description arguments (the description is
stored untyped, exactly as passed). -/
structure Location where
  name : String
  description : Json

/-- Tail of LocationImporter._do_import after the validity checks: the
statement return name, Location(json_data["name"], json_data["description"])
sits OUTSIDE the try block of the source, so a missing "description" field
raises KeyError carrying no name attribute. -/
def locFinish (j : Json) (name : String) : Except PyExc (String × Location) :=
  match jget j "description" with
  | some d => Except.ok (name, ⟨name, d⟩)
  | none => Except.error ⟨none, "KeyError: description"⟩

/-- Exits check of LocationImporter._do_import : when an "exits" field is
present it must be a sequence, otherwise the assert raises and the except
block attaches the record name to the exception. -/
def locCheckExits (j : Json) (name : String) : Except PyExc (String × Location) :=
  match jget j "exits" with
  | some (Json.arr _) => locFinish j name
  | some _ => Except.error ⟨some name, "AssertionError: exits is not a list"⟩
  | none => locFinish j name

/-- LocationImporter._do_import : read the name, assert that an "items"
field, if present, is a mapping and an "exits" field, if present, is a
sequence (failures of these asserts are rethrown with the record name
attached via setattr), then build the Location outside the try block.
A missing "name" makes the subscript raise before the local variable name
is bound, so the setattr line itself raises NameError and the exception
escaping carries no name attribute. A non-text "name" cannot reach this
function through import_file, since process_json asserts the field is
text; that branch is marked unreachable here. -/
def location_do_import (j : Json) : Except PyExc (String × Location) :=
  match jget j "name" with
  | some (Json.str name) =>
    (match jget j "items" with
     | some (Json.obj _) => locCheckExits j name
     | some _ => Except.error ⟨some name, "AssertionError: items is not a dict"⟩
     | none => locCheckExits j name)
  | some _ => Except.error ⟨none, "unreachable via import_file: non-text name"⟩
  | none => Except.error ⟨none, "NameError: name"⟩

/-- Modelled from the spec: the character-class descriptor resolved from
external code (src/ has no character.py). The importer observes its str()
form, used as the registry key, and its frequency attribute, assigned from
the record and read by Library.build_class_distr (spec sections 4.5, 4.6). -/
structure CClass where
  strForm : String
  frequency : Rat
deriving DecidableEq

/-- Modelled from the spec: the item definition resolved from external
code. The importer observes only its str() form, used as the registry key;
per src/item.py the item metaclass defines no dunder str, so for a class
the form is the default class repr of the host language. -/
structure ItemCls where
  strForm : String
deriving DecidableEq

/-- Python str.replace for a nonempty pattern, by fuel over the input
length: at each position either the pattern matches and is replaced, or
one character is copied. -/
def replFuel : Nat → List Char → List Char → List Char → List Char
  | 0, cs, _, _ => cs
  | _ + 1, [], _, _ => []
  | n + 1, c :: rest, pat, rep =>
    if pat.isPrefixOf (c :: rest) then rep ++ replFuel n ((c :: rest).drop pat.length) pat rep
    else c :: replFuel n rest pat rep

/-- Python str.replace(pat, rep) on strings (nonempty pattern). -/
def pyReplace (s pat rep : String) : String :=
  String.mk (replFuel s.data.length s.data pat.data rep.data)

/-- The module name computed by the source before importlib.import_module:
path.replace(".py", "").replace("/", "."). -/
def modName (path : String) : String :=
  pyReplace (pyReplace path ".py" "") "/" "."

/-- ItemImporter._do_import : read name and path, resolve the symbol named
by the record from the external module (importlib plus getattr, passed in
as resolve), and return the pair str(item), item — the registry key is the
str() form of the resolved object, not the record name. All failures after
name is bound are rethrown with the record name attached. -/
def item_do_import (resolve : String → String → Except PyExc ItemCls) (j : Json) :
    Except PyExc (String × ItemCls) :=
  match jget j "name" with
  | some (Json.str name) =>
    (match jget j "path" with
     | some (Json.str path) =>
       (match resolve (modName path) name with
        | Except.ok it => Except.ok (it.strForm, it)
        | Except.error e => Except.error ⟨some name, e.msg⟩)
     | some _ => Except.error ⟨some name, "AttributeError: replace"⟩
     | none => Except.error ⟨some name, "KeyError: path"⟩)
  | some _ => Except.error ⟨none, "unreachable via import_file: non-text name"⟩
  | none => Except.error ⟨none, "NameError: name"⟩

/-- CharacterClassImporter._do_import : like the item variant, but an
optional "frequency" field is asserted to be floating point and assigned
onto the resolved class before the pair str(class), class is returned.
The registry key is again the str() form of the resolved object. -/
def cclass_do_import (resolve : String → String → Except PyExc CClass) (j : Json) :
    Except PyExc (String × CClass) :=
  match jget j "name" with
  | some (Json.str name) =>
    (match jget j "path" with
     | some (Json.str path) =>
       (match resolve (modName path) name with
        | Except.ok c =>
          (match jget j "frequency" with
           | some (Json.flt q) => Except.ok ((⟨c.strForm, q⟩ : CClass).strForm, (⟨c.strForm, q⟩ : CClass))
           | some _ => Except.error ⟨some name, "AssertionError: frequency is not a float"⟩
           | none => Except.ok (c.strForm, c))
        | Except.error e => Except.error ⟨some name, e.msg⟩)
     | some _ => Except.error ⟨some name, "AttributeError: replace"⟩
     | none => Except.error ⟨some name, "KeyError: path"⟩)
  | some _ => Except.error ⟨none, "unreachable via import_file: non-text name"⟩
  | none => Except.error ⟨none, "NameError: name"⟩

/-- Modelled from the spec: util/distr.py is absent from src/, so the
WeightedDistribution of spec section 4.3 stands in for RandDist — a fixed
pairing of items with weights. -/
structure RandDist (α : Type) where
  items : List α
  weights : List Rat

/-- Modelled from the spec: construction of a WeightedDistribution fails
when the item and weight counts mismatch, some weight is negative, or the
weight sum is zero; otherwise the pairing is stored as given. -/
def RandDist.build (items : List α) (weights : List Rat) : Except String (RandDist α) :=
  if items.length ≠ weights.length then Except.error "length mismatch"
  else if weights.any (fun w => decide (w < 0)) then Except.error "negative weight"
  else if weights.sum = 0 then Except.error "zero weight sum"
  else Except.ok ⟨items, weights⟩

/-- The Library state: the three registries and the stored class
distribution (random_class in the source, None until built). -/
structure Library where
  locations : List (String × Location)
  char_classes : List (String × CClass)
  items : List (String × ItemCls)
  random_class : Option (RandDist CClass)

/-- Library.build_class_distr : filter the character classes of the
current registry to those with frequency greater than 0; when none remain
raise; otherwise construct the distribution over exactly those classes,
weighted by their frequencies, and store it. An exception from the
distribution constructor would propagate to the caller. -/
def build_class_distr (lib : Library) : Except PyExc Library :=
  let to_include := (lib.char_classes.map Prod.snd).filter (fun c => decide (0 < c.frequency))
  if to_include.length = 0 then
    Except.error ⟨none, "No valid classes with frequency greater than 0"⟩
  else
    match RandDist.build to_include (to_include.map (fun x => x.frequency)) with
    | Except.error e => Except.error ⟨none, e⟩
    | Except.ok d => Except.ok ⟨lib.locations, lib.char_classes, lib.items, some d⟩

/-- Boolean success test on an Except result: true exactly when no
exception escaped. -/
def exceptOk : Except ε α → Bool
  | Except.ok _ => true
  | Except.error _ => false

/-- Test for a macro token, to count the macro tokens of an input. -/
def isMacTok : Tok → Bool
  | Tok.mac _ => true
  | Tok.lit _ => false

/-- A LoadEnv whose file read yields empty text and whose structural parse
yields the given record: the smallest environment that feeds one concrete
parsed record into import_file. -/
def constEnv (j : Json) : LoadEnv :=
  ⟨fun _ => Except.ok "", fun e => e, fun _ => Except.ok j⟩

/-- A Location record with a name but no description field. -/
def jNoDesc : Json := Json.obj [("name", Json.str "x")]

/-- A Location record whose name is the empty text. -/
def jEmptyName : Json := Json.obj [("name", Json.str ""), ("description", Json.str "d")]

/-- An Item record naming the symbol Sword in the external unit items.py. -/
def jSword : Json := Json.obj [("name", Json.str "Sword"), ("path", Json.str "items.py")]

/-- The external resolver holding one item class named Sword in module
items; per the item metaclass of src/item.py, which defines no dunder str,
the str() form of the class is the default class repr of the host. -/
def resolveSword : String → String → Except PyExc ItemCls :=
  fun m s =>
    if m = "items" ∧ s = "Sword" then Except.ok ⟨"<class items.Sword>"⟩
    else Except.error ⟨none, "ImportError: module not found"⟩

/-- A Location record whose items field is a sequence instead of a mapping. -/
def jItemsArr : Json :=
  Json.obj [("name", Json.str "x"), ("items", Json.arr []), ("description", Json.str "d")]

/-- First of two well-formed Location records sharing the name tavern. -/
def jLocA : Json := Json.obj [("name", Json.str "tavern"), ("description", Json.str "one")]

/-- Second of two well-formed Location records sharing the name tavern. -/
def jLocB : Json := Json.obj [("name", Json.str "tavern"), ("description", Json.str "two")]

/-- A Library holding two character classes, one with frequency 1 and one
with frequency 0. -/
def libTwo : Library := ⟨[], [("a", ⟨"A", 1⟩), ("b", ⟨"B", 0⟩)], [], none⟩

/-- A conversion function whose every failure carries a name attribute. -/
def failNamed : Json → Except PyExc (String × ItemCls) :=
  fun _ => Except.error ⟨some "n", "object failure"⟩

/-! Helper lemmas about the dictionary model. -/

theorem lookupKey_upsert_self (k : String) (v : α) (l : List (String × α)) :
    lookupKey k (upsert k v l) = some v := by
  induction l with
  | nil => simp [upsert, lookupKey]
  | cons p rest ih =>
    by_cases hp : p.1 = k
    · simp [upsert, hp, lookupKey]
    · simp [upsert, hp, lookupKey, ih]

theorem lookupKey_upsert_ne (k1 k : String) (v : α) (l : List (String × α)) (h : k1 ≠ k) :
    lookupKey k1 (upsert k v l) = lookupKey k1 l := by
  have hk : ¬ k = k1 := fun he => h he.symm
  induction l with
  | nil => simp [upsert, lookupKey, hk]
  | cons p rest ih =>
    by_cases hp : p.1 = k
    · have hp1 : ¬ p.1 = k1 := fun he => h (he.symm.trans hp)
      simp [upsert, hp, lookupKey, hk, hp1]
    · simp [upsert, hp, lookupKey, ih]

/-! Tokenizer behaviour on macro-free text. -/

theorem foldl_no_open (cs : List Char) : ∀ (st : TokState), st.macStarted = false →
    opens st.prev cs = false →
    (cs.foldl stepChar st).acc = st.acc ∧ (cs.foldl stepChar st).cur = st.cur ++ cs := by
  induction cs with
  | nil => intro st _ _; simp
  | cons c rest ih =>
    intro st h1 h2
    have hsplit : (decide (c = Char.ofNat 123 ∧ st.prev = some (Char.ofNat 33))) = false ∧
        opens (some c) rest = false := by
      simpa [opens, Bool.or_eq_false_iff] using h2
    have hstep : stepChar st c = ⟨st.acc, st.cur ++ [c], st.depth, st.macStarted, some c⟩ := by
      simp [stepChar, h1, of_decide_eq_false hsplit.1]
    rw [List.foldl_cons, hstep]
    have hrec := ih ⟨st.acc, st.cur ++ [c], st.depth, st.macStarted, some c⟩ h1 hsplit.2
    exact ⟨hrec.1, by rw [hrec.2]; simp⟩

/-! Claims about the tokenizer and renderer. -/

/-- C8: tokenizing the input a!\x7b1+1\x7db yields exactly three tokens —
literal a, macro with expression 1+1, literal b — and rendering that token
sequence with the arithmetic evaluator produces the text a2b. -/
theorem c8_three_tokens_render :
    StocString.tokens "a!\x7b1+1\x7db" = [Tok.lit "a", Tok.mac "1+1", Tok.lit "b"] ∧
    StocString.process arithEval "a!\x7b1+1\x7db" = "a2b" :=
  ⟨rfl, rfl⟩

/-- C9: tokenizing the input !\x7bchoice(\x7b1:2\x7d)\x7d yields exactly one
macro token, whose expression text is choice(\x7b1:2\x7d): the inner braces
move the depth counter, so the macro closes only when depth returns to 0 and
never at the first closing brace. The full token list carries that single
macro between two empty literals. -/
theorem c9_nested_braces_one_macro :
    StocString.tokens "!\x7bchoice(\x7b1:2\x7d)\x7d" =
      [Tok.lit "", Tok.mac "choice(\x7b1:2\x7d)", Tok.lit ""] ∧
    (StocString.tokens "!\x7bchoice(\x7b1:2\x7d)\x7d").filter isMacTok =
      [Tok.mac "choice(\x7b1:2\x7d)"] :=
  ⟨rfl, rfl⟩

/-- C3 counterexample: on the unterminated-macro input x!\x7b1+1 given by the
spec, tokenization does not fail — the loop of StocString.__init__ has no
raise path — and returns the two-token sequence literal x, literal !\x7b1+1,
which the claimed TemplateSyntaxError failure would forbid. -/
theorem c3_counterexample_no_failure :
    StocString.tokens "x!\x7b1+1" = [Tok.lit "x", Tok.lit "!\x7b1+1"] ∧
    StocString.process arithEval "x!\x7b1+1" = "x!\x7b1+1" :=
  ⟨rfl, rfl⟩

/-- C3 amended: when a macro is opened and the input ends before the brace
depth returns to 0, tokenization still succeeds: no macro token is produced
from the opened macro — its accumulated text, still prefixed with !\x7b,
remains the trailing literal token — and rendering under any evaluator
reproduces the input unchanged, as witnessed on the spec example x!\x7b1+1. -/
theorem c3_amended_unterminated_is_literal (ev : String → String) :
    (StocString.tokens "x!\x7b1+1").filter isMacTok = [] ∧
    StocString.process ev "x!\x7b1+1" = "x!\x7b1+1" :=
  ⟨rfl, rfl⟩

/-- C10: for every input string containing no occurrence of the substring
!\x7b (scanned as an adjacent pair by opens, exactly the condition of the
tokenizer loop), tokenization yields the single literal token holding the
whole input and rendering under any evaluator returns the input unchanged:
the pipeline is the identity on macro-free text. -/
theorem c10_identity_on_macro_free (s : String) (ev : String → String)
    (h : opens none s.data = false) :
    StocString.tokens s = [Tok.lit s] ∧ StocString.process ev s = s := by
  have key := foldl_no_open s.data ⟨[], [], 0, false, none⟩ rfl h
  have htok : StocString.tokens s = [Tok.lit s] := by
    show (s.data.foldl stepChar ⟨[], [], 0, false, none⟩).acc ++
        [Tok.lit (String.mk (s.data.foldl stepChar ⟨[], [], 0, false, none⟩).cur)] = [Tok.lit s]
    rw [key.1, key.2]
    rfl
  refine ⟨htok, ?_⟩
  unfold StocString.process
  rw [htok]
  show "" ++ s = s
  rfl

/-- C10 witness: the concrete input a\x7db!x\x7b contains lone exclamation
and brace characters but no macro opener, and the pipeline is the identity
on it. -/
theorem c10_witness :
    opens none "a\x7db!x\x7b".data = false ∧
    (StocString.tokens "a\x7db!x\x7b" = [Tok.lit "a\x7db!x\x7b"] ∧
     StocString.process arithEval "a\x7db!x\x7b" = "a\x7db!x\x7b") :=
  ⟨rfl, c10_identity_on_macro_free "a\x7db!x\x7b" arithEval rfl⟩

/-! Claims about the importer. -/

/-- C1 counterexample: on a Location file whose record has a name but no
description field, the conversion raises KeyError outside the inner try
block, so the exception carries no name attribute and the read of ex.name
in the except block of import_file raises AttributeError, which escapes to
the caller; a batch containing that file aborts instead of processing the
remaining files. This refutes the claim that import_file never raises and
that a batch always processes every file. -/
theorem c1_counterexample_description_escapes :
    exceptOk (import_file (constEnv jNoDesc) location_do_import (emptyState Location) "loc.json") = false ∧
    exceptOk (import_batch (constEnv jNoDesc) location_do_import (emptyState Location)
      ["loc.json", "b.json"]) = false :=
  ⟨rfl, rfl⟩

/-- C1 amended: import_file records the outcome internally and returns
normally — and hence a batch over any file list processes every file —
provided every exception raised by the variant conversion carries a name
attribute; a conversion failure lacking one (such as the missing
description above) escapes to the caller. -/
theorem c1_amended_no_escape_with_named_failures (env : LoadEnv)
    (doImp : Json → Except PyExc (String × α))
    (h : ∀ j e, doImp j = Except.error e → e.nameAttr.isSome = true) :
    (∀ st f, exceptOk (import_file env doImp st f) = true) ∧
    (∀ st fs, exceptOk (import_batch env doImp st fs) = true) := by
  have hone : ∀ st f, exceptOk (import_file env doImp st f) = true := by
    intro st f
    cases hp : process_json env f with
    | error e => simp [import_file, hp, exceptOk]
    | ok j =>
      cases hd : doImp j with
      | ok p => simp [import_file, hp, hd, exceptOk]
      | error e =>
        have hn := h j e hd
        cases he : e.nameAttr with
        | some n => simp [import_file, hp, hd, he, exceptOk]
        | none => rw [he] at hn; simp at hn
  refine ⟨hone, ?_⟩
  intro st fs
  induction fs generalizing st with
  | nil => rfl
  | cons f rest ih =>
    cases himp : import_file env doImp st f with
    | ok st1 => simpa [import_batch, himp] using ih st1
    | error e =>
      have hf := hone st f
      rw [himp] at hf
      simp [exceptOk] at hf

/-- C1 witness: a conversion whose failures all carry a name attribute
never lets import_file raise, on any state, file or batch. -/
theorem c1_witness :
    (∀ j e, failNamed j = Except.error e → e.nameAttr.isSome = true) ∧
    ((∀ st f, exceptOk (import_file (constEnv Json.null) failNamed st f) = true) ∧
     (∀ st fs, exceptOk (import_batch (constEnv Json.null) failNamed st fs) = true)) := by
  have h : ∀ j e, failNamed j = Except.error e → e.nameAttr.isSome = true := by
    intro j e he
    cases he
    rfl
  exact ⟨h, c1_amended_no_escape_with_named_failures (constEnv Json.null) failNamed h⟩

/-- C4 counterexample: a record whose name field is the empty text passes
the assert of process_json — the source checks only membership and type,
never emptiness — so a file carrying it is loaded, produces no fileFailures
entry and mutates the registry, refuting the claim that an empty-text name
fails at file level. -/
theorem c4_counterexample_empty_name_accepted :
    process_json (constEnv jEmptyName) "f.json" = Except.ok jEmptyName ∧
    import_file (constEnv jEmptyName) location_do_import (emptyState Location) "f.json" =
      Except.ok ⟨[("", ⟨"", Json.str "d"⟩)], [("", "f.json")], [("f.json", jEmptyName)], [], []⟩ :=
  ⟨rfl, rfl⟩

/-- C4 amended: whenever the file reads and parses but the top-level value
is not a mapping containing a text field named name — the name missing or
holding a non-text value, or the top level not being a mapping at all —
import_file records exactly one fileFailures entry keyed by the path of
the file and performs zero registry mutations. An empty-text name passes
the check, as the counterexample shows. -/
theorem c4_amended_file_failure_on_name_check (env : LoadEnv)
    (doImp : Json → Except PyExc (String × α)) (st : ImpState α) (f c : String) (j : Json)
    (h1 : env.readFile f = Except.ok c)
    (h2 : env.jsonLoads (StocString.process env.macroEval c) = Except.ok j)
    (h3 : nameCheckOk j = false) :
    import_file env doImp st f =
      Except.ok ⟨st.objects, st.object_source, st.file_data,
        upsert f nameExc.msg st.file_fails, st.failures⟩ := by
  simp [import_file, process_json, h1, h2, h3]

/-- C4 witness: a file whose top-level parsed value is a sequence fails at
file level with one fileFailures entry under the path of the file and no
registry mutation. -/
theorem c4_witness :
    (constEnv (Json.arr [])).readFile "f.json" = Except.ok "" ∧
    (constEnv (Json.arr [])).jsonLoads
      (StocString.process (constEnv (Json.arr [])).macroEval "") = Except.ok (Json.arr []) ∧
    nameCheckOk (Json.arr []) = false ∧
    import_file (constEnv (Json.arr [])) location_do_import (emptyState Location) "f.json" =
      Except.ok ⟨[], [], [], upsert "f.json" nameExc.msg [], []⟩ :=
  ⟨rfl, rfl, rfl,
    c4_amended_file_failure_on_name_check (constEnv (Json.arr [])) location_do_import
      (emptyState Location) "f.json" "" (Json.arr []) rfl rfl rfl⟩

/-- C6: for every Location record whose items field is present but is a
sequence instead of a mapping, the assert inside the inner try block of
LocationImporter._do_import fails, the record name is attached to the
exception, and import_file records exactly one objectFailures entry keyed
by that name while leaving the registry untouched. -/
theorem c6_items_sequence_object_failure (env : LoadEnv) (st : ImpState Location)
    (f c : String) (fields : List (String × Json)) (name : String) (xs : List Json)
    (h1 : env.readFile f = Except.ok c)
    (h2 : env.jsonLoads (StocString.process env.macroEval c) = Except.ok (Json.obj fields))
    (h3 : jlookup "name" fields = some (Json.str name))
    (h4 : jlookup "items" fields = some (Json.arr xs)) :
    import_file env location_do_import st f =
      Except.ok ⟨st.objects, st.object_source, upsert f (Json.obj fields) st.file_data,
        st.file_fails, upsert name "AssertionError: items is not a dict" st.failures⟩ := by
  simp [import_file, process_json, h1, h2, nameCheckOk, jget, h3, location_do_import, h4]

/-- C6 witness: importing the concrete record whose items field is an empty
sequence yields zero registry mutations and exactly one objectFailures
entry keyed by the record name x. -/
theorem c6_witness :
    (constEnv jItemsArr).readFile "f.json" = Except.ok "" ∧
    (constEnv jItemsArr).jsonLoads
      (StocString.process (constEnv jItemsArr).macroEval "") = Except.ok jItemsArr ∧
    import_file (constEnv jItemsArr) location_do_import (emptyState Location) "f.json" =
      Except.ok ⟨[], [], upsert "f.json" jItemsArr [], [],
        upsert "x" "AssertionError: items is not a dict" []⟩ :=
  ⟨rfl, rfl,
    c6_items_sequence_object_failure (constEnv jItemsArr) (emptyState Location) "f.json" ""
      [("name", Json.str "x"), ("items", Json.arr []), ("description", Json.str "d")]
      "x" [] rfl rfl rfl rfl⟩

/-- C7: for every pair of successful imports whose converted records carry
the same name, the later import overwrites the registry entry of the
earlier one under that key — last write wins — and every other registry
key is left exactly as it was: no merging, no deduplication, no removal. -/
theorem c7_last_write_wins (env1 env2 : LoadEnv)
    (doImp : Json → Except PyExc (String × α)) (st : ImpState α)
    (f1 f2 : String) (j1 j2 : Json) (n : String) (o1 o2 : α)
    (h1 : process_json env1 f1 = Except.ok j1) (h2 : doImp j1 = Except.ok (n, o1))
    (h3 : process_json env2 f2 = Except.ok j2) (h4 : doImp j2 = Except.ok (n, o2)) :
    ∃ st1 st2, import_file env1 doImp st f1 = Except.ok st1 ∧
      import_file env2 doImp st1 f2 = Except.ok st2 ∧
      lookupKey n st2.objects = some o2 ∧
      ∀ k, k ≠ n → lookupKey k st2.objects = lookupKey k st.objects := by
  refine ⟨⟨upsert n o1 st.objects, upsert n f1 st.object_source,
      upsert f1 j1 st.file_data, st.file_fails, st.failures⟩,
    ⟨upsert n o2 (upsert n o1 st.objects), upsert n f2 (upsert n f1 st.object_source),
      upsert f2 j2 (upsert f1 j1 st.file_data), st.file_fails, st.failures⟩, ?_, ?_, ?_, ?_⟩
  · simp [import_file, h1, h2]
  · simp [import_file, h3, h4]
  · exact lookupKey_upsert_self n o2 _
  · intro k hk
    rw [lookupKey_upsert_ne k n o2 _ hk, lookupKey_upsert_ne k n o1 _ hk]

/-- C7 witness: two well-formed Location records named tavern, imported in
sequence, leave the registry holding the second Location under that name
with all other keys unchanged. -/
theorem c7_witness :
    process_json (constEnv jLocA) "a.json" = Except.ok jLocA ∧
    location_do_import jLocA = Except.ok ("tavern", ⟨"tavern", Json.str "one"⟩) ∧
    process_json (constEnv jLocB) "b.json" = Except.ok jLocB ∧
    location_do_import jLocB = Except.ok ("tavern", ⟨"tavern", Json.str "two"⟩) ∧
    ∃ st1 st2,
      import_file (constEnv jLocA) location_do_import (emptyState Location) "a.json" =
        Except.ok st1 ∧
      import_file (constEnv jLocB) location_do_import st1 "b.json" = Except.ok st2 ∧
      lookupKey "tavern" st2.objects = some ⟨"tavern", Json.str "two"⟩ ∧
      ∀ k, k ≠ "tavern" →
        lookupKey k st2.objects = lookupKey k (emptyState Location).objects :=
  ⟨rfl, rfl, rfl, rfl,
    c7_last_write_wins (constEnv jLocA) (constEnv jLocB) location_do_import
      (emptyState Location) "a.json" "b.json" jLocA jLocB "tavern"
      ⟨"tavern", Json.str "one"⟩ ⟨"tavern", Json.str "two"⟩ rfl rfl rfl rfl⟩

/-- C2 counterexample: a successful Item import stores the converted object
under the str() form of the resolved class — for a class under the item
metaclass of src/item.py that form is the default class repr — and not
under the name field of the record: after importing the record named Sword
the registry has no entry under Sword, refuting the claim that every
variant keys the registry entry by the name field of the record. -/
theorem c2_counterexample_item_key_not_name :
    import_file (constEnv jSword) (item_do_import resolveSword) (emptyState ItemCls) "it.json" =
      Except.ok ⟨[("<class items.Sword>", ⟨"<class items.Sword>"⟩)],
        [("<class items.Sword>", "it.json")], [("it.json", jSword)], [], []⟩ ∧
    lookupKey "Sword" [(("<class items.Sword>" : String), (⟨"<class items.Sword>"⟩ : ItemCls))] =
      none :=
  ⟨rfl, rfl⟩

/-- C2 amended: on every successful conversion the registry entry is keyed
by the pair returned by the variant, overwriting any prior entry under that
key; for the Location variant that key is the name field of the record,
while for the Item and CharacterClass variants it is the str() form of the
resolved external object, which need not equal the name field. -/
theorem c2_amended_registry_keys :
    (∀ j k loc, location_do_import j = Except.ok (k, loc) →
      jget j "name" = some (Json.str k)) ∧
    (∀ resolve j k it, item_do_import resolve j = Except.ok (k, it) → k = it.strForm) ∧
    (∀ resolve j k c, cclass_do_import resolve j = Except.ok (k, c) → k = c.strForm) ∧
    (∀ (α : Type) (env : LoadEnv) (doImp : Json → Except PyExc (String × α))
       (st : ImpState α) (f : String) (j : Json) (k : String) (o : α),
      process_json env f = Except.ok j → doImp j = Except.ok (k, o) →
      import_file env doImp st f =
        Except.ok ⟨upsert k o st.objects, upsert k f st.object_source,
          upsert f j st.file_data, st.file_fails, st.failures⟩) := by
  refine ⟨?_, ?_, ?_, ?_⟩
  · intro j k loc h
    simp only [location_do_import, locCheckExits, locFinish] at h
    repeat' split at h
    all_goals simp_all
  · intro resolve j k it h
    simp only [item_do_import] at h
    repeat' split at h
    all_goals simp_all
    rw [← h.1, ← h.2]
  · intro resolve j k c h
    simp only [cclass_do_import] at h
    repeat' split at h
    all_goals simp_all
    all_goals rw [← h.1, ← h.2]
  · intro α env doImp st f j k o h1 h2
    simp [import_file, h1, h2]

/-- C2 witness: the amended statement evaluated on the Sword record — the
conversion succeeds with key equal to the str() form of the resolved class
and import_file stores exactly that entry. -/
theorem c2_witness :
    item_do_import resolveSword jSword =
      Except.ok ("<class items.Sword>", ⟨"<class items.Sword>"⟩) ∧
    ("<class items.Sword>" : String) = (⟨"<class items.Sword>"⟩ : ItemCls).strForm ∧
    import_file (constEnv jSword) (item_do_import resolveSword) (emptyState ItemCls) "it.json" =
      Except.ok ⟨upsert "<class items.Sword>" ⟨"<class items.Sword>"⟩ [],
        upsert "<class items.Sword>" "it.json" [], upsert "it.json" jSword [], [], []⟩ :=
  ⟨rfl,
    c2_amended_registry_keys.2.1 resolveSword jSword "<class items.Sword>"
      ⟨"<class items.Sword>"⟩ rfl,
    c2_amended_registry_keys.2.2.2 ItemCls (constEnv jSword) (item_do_import resolveSword)
      (emptyState ItemCls) "it.json" jSword "<class items.Sword>" ⟨"<class items.Sword>"⟩
      rfl rfl⟩

/-- C5: Library.build_class_distr fails, raising to its caller, exactly
when no registered character class has frequency greater than 0; otherwise
it stores, without failing, a distribution whose item list is exactly the
registered classes with positive frequency, each weighted by its own
frequency. The statement holds for every current library state, so the
operation may be invoked again after imports changed the registry and
rebuilds from that state. -/
theorem c5_build_class_distr_spec (lib : Library) :
    (exceptOk (build_class_distr lib) = false ↔
      (lib.char_classes.map Prod.snd).filter (fun c => decide (0 < c.frequency)) = []) ∧
    ((lib.char_classes.map Prod.snd).filter (fun c => decide (0 < c.frequency)) ≠ [] →
      build_class_distr lib = Except.ok ⟨lib.locations, lib.char_classes, lib.items,
        some ⟨(lib.char_classes.map Prod.snd).filter (fun c => decide (0 < c.frequency)),
          ((lib.char_classes.map Prod.snd).filter (fun c => decide (0 < c.frequency))).map
            (fun x => x.frequency)⟩⟩) := by
  have hpos : ∀ x ∈ (lib.char_classes.map Prod.snd).filter (fun c => decide (0 < c.frequency)),
      0 < x.frequency := by
    intro x hx
    exact of_decide_eq_true (List.mem_filter.mp hx).2
  have hbuild : (lib.char_classes.map Prod.snd).filter (fun c => decide (0 < c.frequency)) ≠ [] →
      RandDist.build ((lib.char_classes.map Prod.snd).filter (fun c => decide (0 < c.frequency)))
        (((lib.char_classes.map Prod.snd).filter (fun c => decide (0 < c.frequency))).map
          (fun x => x.frequency)) =
      Except.ok ⟨(lib.char_classes.map Prod.snd).filter (fun c => decide (0 < c.frequency)),
        ((lib.char_classes.map Prod.snd).filter (fun c => decide (0 < c.frequency))).map
          (fun x => x.frequency)⟩ := by
    intro hne
    have hw : ∀ w ∈ ((lib.char_classes.map Prod.snd).filter
        (fun c => decide (0 < c.frequency))).map (fun x => x.frequency), 0 < w := by
      intro w hmem
      obtain ⟨x, hx, hxw⟩ := List.mem_map.mp hmem
      exact hxw ▸ hpos x hx
    have hsum := List.sum_pos _ hw (by simpa using hne)
    unfold RandDist.build
    rw [if_neg (by simp), if_neg, if_neg hsum.ne.symm]
    intro hany
    obtain ⟨w, hmem, hdec⟩ := List.any_eq_true.mp hany
    exact absurd (of_decide_eq_true hdec) (not_lt_of_gt (hw w hmem))
  have hmain : (lib.char_classes.map Prod.snd).filter (fun c => decide (0 < c.frequency)) ≠ [] →
      build_class_distr lib = Except.ok ⟨lib.locations, lib.char_classes, lib.items,
        some ⟨(lib.char_classes.map Prod.snd).filter (fun c => decide (0 < c.frequency)),
          ((lib.char_classes.map Prod.snd).filter (fun c => decide (0 < c.frequency))).map
            (fun x => x.frequency)⟩⟩ := by
    intro hne
    simp only [build_class_distr]
    rw [if_neg (by simpa [List.length_eq_zero] using hne), hbuild hne]
  refine ⟨?_, hmain⟩
  by_cases hne : (lib.char_classes.map Prod.snd).filter (fun c => decide (0 < c.frequency)) = []
  · have herr : build_class_distr lib =
        Except.error ⟨none, "No valid classes with frequency greater than 0"⟩ := by
      simp [build_class_distr, hne]
    simp [herr, exceptOk, hne]
  · simp [hmain hne, exceptOk, hne]

/-- C5 witness: for a library holding one class of frequency 1 and one of
frequency 0, building does not fail and the stored distribution holds
exactly the positive-frequency class with weight 1. -/
theorem c5_witness :
    (exceptOk (build_class_distr libTwo) = false ↔
      (libTwo.char_classes.map Prod.snd).filter (fun c => decide (0 < c.frequency)) = []) ∧
    ((libTwo.char_classes.map Prod.snd).filter (fun c => decide (0 < c.frequency)) ≠ [] →
      build_class_distr libTwo = Except.ok ⟨libTwo.locations, libTwo.char_classes, libTwo.items,
        some ⟨(libTwo.char_classes.map Prod.snd).filter (fun c => decide (0 < c.frequency)),
          ((libTwo.char_classes.map Prod.snd).filter (fun c => decide (0 < c.frequency))).map
            (fun x => x.frequency)⟩⟩) :=
  c5_build_class_distr_spec libTwo

/-- C3 witness: the amended statement instantiated at the arithmetic
evaluator. -/
theorem c3_witness :
    (StocString.tokens "x!\x7b1+1").filter isMacTok = [] ∧
    StocString.process arithEval "x!\x7b1+1" = "x!\x7b1+1" :=
  c3_amended_unterminated_is_literal arithEval
